import Mathlib

/-!
Verification development for the duckpi image-capture repository
(`duckpi_ic/ic.py`, `duckpi_ic/util.py`, `duckpi_ic/settings.py`).

The Python modules are shallowly embedded below:
* the config validator (`validate_config` and its travel-overlap loop) is
  embedded over raw mappings whose keys may be absent, so that Python
  `KeyError`s are modelled exactly where they occur;
* the camera selector (`start_camera`) is embedded as a function on the
  three GPIO gate lines (pins 7, 11, 12);
* the actuator arithmetic (`move_actuator_relative` on top of
  `get_actuator_position`/`move_actuator`) is embedded over `ℚ` with the
  same integer rounding the source performs;
* the run controller (`run_experiment`) is embedded as a deterministic
  function of an environment of oracles (which capture/move succeeds,
  which remote transfer succeeds, whether the notification email sends)
  producing an event trace and a final state, mirroring the
  try/except/finally structure of the source.
-/

namespace DuckPi

/-! ## Validator embedding (`duckpi_ic/util.py`) -/

/-- Python error values `validate_config` can raise: a raw `KeyError` from
subscripting a missing key, or a `schema.SchemaError` carrying its list of
error strings. -/
inductive PyError where
  | keyError (key : String)
  | schemaError (errors : List String)
deriving DecidableEq, Repr

deriving instance DecidableEq for Except

/-- Raw mapping found under a `stage_distance` / `row_distance` key of a
stage mapping; `none` models a missing key. -/
structure RawLength where
  length : Option ℤ
  units : Option String
deriving DecidableEq, Repr

/-- Raw stage mapping as loaded from YAML; `none` models a missing key. -/
structure RawStage where
  stage_distance : Option RawLength
  row_distance : Option RawLength
  rows : Option ℤ
deriving DecidableEq, Repr

/-- Raw experiment-config mapping as loaded from YAML; `none` models a
missing key.  Values are already typed (YAML type errors are out of scope);
constraint violations (non-positive numbers, short emails, missing paths)
are representable and checked by the schema embedding below. -/
structure RawConfig where
  name : Option String
  output_dir : Option String
  number_of_images : Option ℤ
  emails : Option (List String)
  stages : Option (List RawStage)
deriving DecidableEq, Repr

/-- Environment-derived settings the validator consults: the optional
maximum-travel bound (`settings.MAX_DISTANCE`; `none` models unset or a
falsy value, per `if max_dist: ... else: max_dist = None`) and the
`os.path.exists` oracle used by the `output_dir` schema rule. -/
structure Settings where
  MAX_DISTANCE : Option ℤ
  path_exists : String → Bool

/-- The f-string raised when a stage overlaps the previous stage's span
(util.py line 46). -/
def overlap_error_msg (i : ℕ) (prev stage_distance : ℤ) : String :=
  "Size of stage " ++ toString ((i : ℤ) - 1) ++ " " ++ toString prev ++
    " is longer than `distance_from_home` of next stage (" ++
    toString stage_distance ++ ")!"

/-- The f-string raised when a stage span exceeds the maximum travel bound
(util.py line 53). -/
def max_length_error_msg (m : ℤ) : String :=
  "Stages exceed max length of " ++ toString m ++ "!"

/-- The travel-overlap loop at the top of `validate_config` (util.py lines
39--55), including the raw key subscripts in the order the source performs
them: `stage["stage_distance"]["length"]` first, then after the overlap
comparison `stage["row_distance"]["length"]` and `stage["rows"]`.  A
missing key raises a `KeyError` exactly where Python would; the two
in-loop `raise SchemaError` statements abort at the first violation. -/
def checkStagesLoop (max_dist : Option ℤ) :
    List RawStage → ℤ → ℕ → Except PyError Unit
  | [], _, _ => Except.ok ()
  | stage :: rest, prev_stage_length, i =>
    match stage.stage_distance with
    | none => Except.error (PyError.keyError "stage_distance")
    | some sd =>
      match sd.length with
      | none => Except.error (PyError.keyError "length")
      | some stage_distance =>
        if stage_distance < prev_stage_length then
          Except.error (PyError.schemaError
            [overlap_error_msg i prev_stage_length stage_distance])
        else
          match stage.row_distance with
          | none => Except.error (PyError.keyError "row_distance")
          | some rd =>
            match rd.length with
            | none => Except.error (PyError.keyError "length")
            | some rd_len =>
              match stage.rows with
              | none => Except.error (PyError.keyError "rows")
              | some rows =>
                let row_distance := rd_len * rows
                let stage_span := row_distance + stage_distance
                match max_dist with
                | some m =>
                  if stage_span > m then
                    Except.error (PyError.schemaError [max_length_error_msg m])
                  else checkStagesLoop max_dist rest stage_span (i + 1)
                | none => checkStagesLoop max_dist rest stage_span (i + 1)

/-- A `schema` "Missing key" error. -/
def schema_missing (key : String) : PyError :=
  PyError.schemaError ["Missing key: " ++ key]

/-- The `make_length_schema` sub-schema (util.py lines 57--65): `length`
must be a positive integer; `units` is optional. -/
def length_schema_check (field_name : String) (rl : Option RawLength) :
    Except PyError Unit :=
  match rl with
  | none => Except.error (schema_missing field_name)
  | some l =>
    match l.length with
    | none => Except.error (schema_missing "length")
    | some n =>
      if n > 0 then Except.ok ()
      else Except.error (PyError.schemaError
        [field_name ++ " must be greater than 0."])

/-- The `stage_distance` sub-schema (util.py lines 98--103): `length` must
be present (any integer); `units` is optional. -/
def stage_distance_schema_check (rl : Option RawLength) : Except PyError Unit :=
  match rl with
  | none => Except.error (schema_missing "stage_distance")
  | some l =>
    match l.length with
    | none => Except.error (schema_missing "length")
    | some _ => Except.ok ()

/-- The per-stage sub-schema (util.py lines 88--106). -/
def stage_schema_check (s : RawStage) : Except PyError Unit :=
  match length_schema_check "`row_distance`" s.row_distance with
  | Except.error e => Except.error e
  | Except.ok _ =>
    match s.rows with
    | none => Except.error (schema_missing "rows")
    | some n =>
      if n > 0 then stage_distance_schema_check s.stage_distance
      else Except.error (PyError.schemaError
        ["`rows` is required and must be greater than 0"])

/-- Validate every stage mapping against the per-stage sub-schema,
stopping at the first failure (the `schema` library raises on the first
failing element). -/
def stages_schema_check : List RawStage → Except PyError Unit
  | [] => Except.ok ()
  | s :: rest =>
    match stage_schema_check s with
    | Except.error e => Except.error e
    | Except.ok _ => stages_schema_check rest

/-- The field-level `Schema` of `validate_config` (util.py lines 67--109):
`name` non-empty, `output_dir` non-empty and existing, `number_of_images`
positive, every email longer than 5 characters, and each stage matching
the per-stage sub-schema; extra keys are ignored.  The `schema` library
raises on the first constraint that fails. -/
def schemaCheck (path_exists : String → Bool) (cfg : RawConfig) :
    Except PyError Unit :=
  match cfg.name with
  | none => Except.error (schema_missing "name")
  | some nm =>
    if nm.length = 0 then
      Except.error (PyError.schemaError ["`name` is required and must be a string."])
    else
      match cfg.output_dir with
      | none => Except.error (schema_missing "output_dir")
      | some od =>
        if od.length < 1 then
          Except.error (PyError.schemaError ["`output_dir` is required and must exist."])
        else if path_exists od = false then
          Except.error (PyError.schemaError ["`output_dir` is required and must exist."])
        else
          match cfg.number_of_images with
          | none => Except.error (schema_missing "number_of_images")
          | some k =>
            if k ≤ 0 then
              Except.error (PyError.schemaError
                ["`number_of_images` is required and must be greater than 0."])
            else
              match cfg.emails with
              | none => Except.error (schema_missing "emails")
              | some es =>
                if es.all (fun e => decide (5 < e.length)) then
                  match cfg.stages with
                  | none => Except.error (schema_missing "stages")
                  | some ss => stages_schema_check ss
                else
                  Except.error (PyError.schemaError ["At least one email is required!"])

/-- Embedding of `validate_config` (util.py lines 31--111): the travel-overlap loop
runs first — it subscripts `config["stages"]` directly, so a missing
`stages` key is a raw `KeyError` — and only if the whole loop passes does
the field-level schema validation run. -/
def validate_config (s : Settings) (cfg : RawConfig) : Except PyError Unit :=
  match cfg.stages with
  | none => Except.error (PyError.keyError "stages")
  | some stages =>
    match checkStagesLoop s.MAX_DISTANCE stages 0 0 with
    | Except.error e => Except.error e
    | Except.ok _ => schemaCheck s.path_exists cfg

/-- Extract the numeric data `(stage_distance.length, row_distance.length,
rows)` of a raw stage when all three keys (and the nested `length` keys)
are present. -/
def stageData (s : RawStage) : Option (ℤ × ℤ × ℤ) :=
  match s.stage_distance, s.row_distance, s.rows with
  | some sd, some rd, some rows =>
    match sd.length, rd.length with
    | some sdl, some rdl => some (sdl, rdl, rows)
    | _, _ => none
  | _, _, _ => none

/-- Numeric data of a whole stage list, defined when every stage is fully
keyed. -/
def stagesData : List RawStage → Option (List (ℤ × ℤ × ℤ))
  | [] => some []
  | s :: rest =>
    match stageData s, stagesData rest with
    | some d, some ds => some (d :: ds)
    | _, _ => none

/-- The travel constraint as the specification states it, over the numeric
stage data `(stage_distance, row_distance, rows)`: each stage's
`stage_distance` is at least the cumulative span reached by the prior
stages (the accumulator `prev`, starting at 0), and, when a maximum travel
distance is configured, no stage's cumulative span
`row_distance * rows + stage_distance` exceeds it. -/
def specAccepts (max_dist : Option ℤ) : List (ℤ × ℤ × ℤ) → ℤ → Prop
  | [], _ => True
  | d :: rest, prev =>
      prev ≤ d.1 ∧ (∀ m, max_dist = some m → d.2.1 * d.2.2 + d.1 ≤ m) ∧
        specAccepts max_dist rest (d.2.1 * d.2.2 + d.1)

/-! ## Camera selection (`duckpi_ic/ic.py`, `Cameras` and `start_camera`) -/

/-- The `Cameras` enum (ic.py lines 40--44); member order A, B, C, D. -/
inductive Cameras where
  | A
  | B
  | C
  | D
deriving DecidableEq, Repr

/-- Name of the Python enum member (`Cameras.name`). -/
def Cameras.name : Cameras → String
  | Cameras.A => "A"
  | Cameras.B => "B"
  | Cameras.C => "C"
  | Cameras.D => "D"

/-- Value of the Python enum member (`Cameras.value`). -/
def Cameras.value : Cameras → ℕ
  | Cameras.A => 0
  | Cameras.B => 1
  | Cameras.C => 2
  | Cameras.D => 3

/-- Iteration order of `for camera in Cameras` (Python enum definition
order). -/
def Cameras.all : List Cameras := [Cameras.A, Cameras.B, Cameras.C, Cameras.D]

/-- Embedding of `Cameras._member_names_`. -/
def camera_member_names : List String := Cameras.all.map Cameras.name

/-- The three GPIO gate lines driven by `start_camera`: board pins 7, 11
and 12 (the spec's G1, G2, G3). -/
structure GpioState where
  pin7 : Bool
  pin11 : Bool
  pin12 : Bool
deriving DecidableEq, Repr

/-- Embedding of `start_camera` (ic.py lines 189--221): the identifier is checked
against `Cameras._member_names_` before any `gp.output` call, so an
invalid identifier raises `ValueError` (returned here as `some message`)
with the gate lines untouched; a valid identifier drives the three gate
lines to that camera's code and returns `none`. -/
def start_camera (camera_id : String) (g : GpioState) : GpioState × Option String :=
  if camera_id ∉ camera_member_names then
    (g, some ("A,B,C,D, received " ++ camera_id))
  else if camera_id = "A" then
    ({ g with pin7 := false, pin11 := false, pin12 := true }, none)
  else if camera_id = "B" then
    ({ g with pin7 := true, pin11 := false, pin12 := true }, none)
  else if camera_id = "C" then
    ({ g with pin7 := false, pin11 := true, pin12 := false }, none)
  else if camera_id = "D" then
    ({ g with pin7 := true, pin11 := true, pin12 := false }, none)
  else (g, none)

/-! ## Actuator arithmetic (`move_actuator_relative`, ic.py lines 151--165)

The actuator position is a physical length, embedded as `ℚ`.  Python's
`round` is round-half-to-even while Mathlib's `round` is
round-half-up; they agree on every value whose fractional part is not
exactly 1/2, and all witnesses below stay away from half-integers. -/

/-- The relative distance `move_actuator_relative` commands:
`_distance = round(distance - round(get_actuator_position(unit)))`
(`distance` is an `int`, so the outer `round` is the identity). -/
def move_actuator_relative_command (distance : ℤ) (current_pos : ℚ) : ℤ :=
  round ((distance : ℚ) - ((round current_pos : ℤ) : ℚ))

/-- Absolute position after `move_actuator_relative distance` executes from
`current_pos`: the commanded relative move is added to the true current
position. -/
def move_to_absolute_result (distance : ℤ) (current_pos : ℚ) : ℚ :=
  current_pos + (move_actuator_relative_command distance current_pos : ℚ)

/-! ## File bookkeeping and remote offload (`duckpi_ic/ic.py`) -/

/-- Content state of the two placeholder result files: `none` is the
zero-length placeholder (`os.stat(first).st_size == 0`), `some p` says the
content of the capture stored at local path `p` was copied in
(`shutil.copy2(p, ...)`). -/
structure FirstLast where
  firstContent : Option String
  lastContent : Option String
deriving DecidableEq, Repr

/-- Embedding of `update_first_last` (ic.py lines 286--291): while `first` is
zero-length, copy the batch's first local path into it; afterwards copy
the batch's last local path into `last`. -/
def update_first_last (fl : FirstLast) (local_paths : List String) : FirstLast :=
  match fl.firstContent with
  | none => { fl with firstContent := local_paths.head? }
  | some _ => { fl with lastContent := local_paths.getLast? }

/-- Embedding of `make_filename_base` (ic.py lines 258--259). -/
def make_filename_base (camera : String) (stage row : ℕ) : String :=
  "cam_" ++ camera ++ "_" ++ toString stage ++ "_" ++ toString row

/-- Embedding of `make_filename_ts` applied to a shot index: the source builds
`f"{filename_base}_{ts}" + "_{:d}.jpg"` and later formats it with the
index (ic.py lines 262--264 and 255). -/
def make_filename_ts (filename_base ts : String) (i : ℕ) : String :=
  filename_base ++ "_" ++ ts ++ "_" ++ toString i ++ ".jpg"

/-- The list of image paths `take_stills` returns (ic.py lines 242--255):
one path per shot index below `img_count`, under
`output_directory/camera<X>/`. -/
def take_stills_paths (output_directory : String) (cam : Cameras)
    (filename_base ts : String) (img_count : ℕ) : List String :=
  (List.range img_count).map (fun i =>
    output_directory ++ "/camera" ++ cam.name ++ "/" ++
      make_filename_ts filename_base ts i)

/-- The per-file loop of `move_files_to_remote` (ic.py lines 267--283),
abstracted over which per-file `c.put` succeeds.  First component: the
`failures` list (local paths whose transfer raised, caught by the per-file
`except`).  Second component: the local files removed — the
`os.remove(local_path)` call at ic.py line 279 is commented out in the
source, so this is `[]` on every path of the loop. -/
def moveFilesLoop (putOk : String → Bool) : List String → List String × List String
  | [] => ([], [])
  | p :: rest =>
    let r := moveFilesLoop putOk rest
    (if putOk p then r.1 else p :: r.1, r.2)

/-- Embedding of `move_files_to_remote` (ic.py lines 267--283): runs the loop
over `local_paths`; the experiment `name` only influences the remote
target directory, not the returned failures. -/
def move_files_to_remote (putOk : String → Bool) (local_paths : List String)
    (name : String) : List String × List String :=
  moveFilesLoop putOk local_paths

/-- Embedding of `make_unmoved_msg` (ic.py lines 333--343). -/
def make_unmoved_msg (unmoved_files : List String) : String :=
  if unmoved_files.length ≠ 0 then
    "The following files could not be saved remotely\n\n" ++
      String.intercalate "\n" unmoved_files ++ "\n\n"
  else ""

/-! ## Run controller (`run_experiment`, ic.py lines 346--461) -/

/-- Observable hardware / network / filesystem events of a run. -/
inductive Event where
  | ensureDirs
  | home
  | moveRel (dist : ℤ)
  | capture (cam : Cameras) (stage row : ℕ)
  | offload (paths : List String)
  | email (success : Bool) (message : String)
  | deleteTmp (path : String)
deriving DecidableEq, Repr

/-- Typed length mapping of a validated config. -/
structure LengthSpec where
  length : ℤ
  units : Option String
deriving DecidableEq, Repr

/-- Typed stage of a validated config. -/
structure Stage where
  stage_distance : LengthSpec
  row_distance : LengthSpec
  rows : ℕ
deriving DecidableEq, Repr

/-- Typed experiment config, as produced by `read_and_validate_config`. -/
structure ExperimentConfig where
  name : String
  output_dir : String
  number_of_images : ℕ
  emails : List String
  stages : List Stage
deriving DecidableEq, Repr

/-- Oracle environment for a run: which capture / move / per-file transfer
succeeds, whether the notification email sends, the exception messages the
failing operations raise, the capture timestamps, the traceback formatter,
and the two placeholder temp paths from `get_first_last_tmp_paths`. -/
structure Env where
  captureOk : ℕ → Bool
  moveOk : ℕ → Bool
  putOk : String → Bool
  emailOk : Bool
  captureErr : ℕ → String
  moveErr : ℕ → String
  emailErr : String
  ts : ℕ → String
  traceFmt : String → String
  tmp1 : String
  tmp2 : String

/-- Mutable state of a run: the event trace so far, the actuator position
(0 at home; every commanded move is an integer number of millimetres), the
placeholder-file contents, the accumulated `unmoved_files`, and the number
of capture / move invocations so far. -/
structure RunState where
  trace : List Event
  pos : ℤ
  fl : FirstLast
  unmoved_files : List String
  captureCount : ℕ
  moveCount : ℕ
deriving Repr

/-- Embedding of `move_actuator` (ic.py lines 123--148): the nth move either succeeds,
advancing the position by `dist`, or raises `moveErr n`. -/
def doMove (env : Env) (dist : ℤ) (st : RunState) : RunState × Option String :=
  let n := st.moveCount
  let st1 : RunState :=
    { st with trace := st.trace ++ [Event.moveRel dist], moveCount := n + 1 }
  if env.moveOk n then ({ st1 with pos := st1.pos + dist }, none)
  else (st1, some (env.moveErr n))

/-- A `take_stills` invocation (ic.py lines 224--255): the nth capture
either succeeds or raises `captureErr n`; the invocation is recorded
either way. -/
def doCapture (env : Env) (cam : Cameras) (stageNo rowNo : ℕ) (st : RunState) :
    RunState × Option String :=
  let n := st.captureCount
  let st1 : RunState :=
    { st with trace := st.trace ++ [Event.capture cam stageNo rowNo],
              captureCount := n + 1 }
  if env.captureOk n then (st1, none)
  else (st1, some (env.captureErr n))

/-- Embedding of `os.path.join(experiment_config["output_dir"], experiment_name)`
(ic.py line 374). -/
def local_save_dir (cfg : ExperimentConfig) : String :=
  cfg.output_dir ++ "/" ++ cfg.name

/-- The non-test offload of one camera batch (ic.py lines 414--421): open
a connection, run `move_files_to_remote`, extend `unmoved_files` with its
failures. -/
def offloadBatch (env : Env) (name : String) (st : RunState)
    (local_paths : List String) : RunState :=
  let failures := (move_files_to_remote env.putOk local_paths name).1
  { st with trace := st.trace ++ [Event.offload local_paths],
            unmoved_files := st.unmoved_files ++ failures }

/-- What follows a successful capture in the camera loop (ic.py lines
404--421): `update_first_last` on the returned paths, then, when not a dry
run, the remote offload of the batch. -/
def afterCapture (env : Env) (cfg : ExperimentConfig) (test : Bool)
    (cam : Cameras) (stageNo rowNo n : ℕ) (st1 : RunState) : RunState :=
  let base := make_filename_base cam.name stageNo rowNo
  let local_paths :=
    take_stills_paths (local_save_dir cfg) cam base (env.ts n)
      cfg.number_of_images
  let st2 : RunState := { st1 with fl := update_first_last st1.fl local_paths }
  if test then st2 else offloadBatch env cfg.name st2 local_paths

/-- The `for camera in Cameras` loop body (ic.py lines 402--421): capture,
update the placeholder files, offload when not a dry run; a capture
exception aborts the remaining cameras. -/
def runCameras (env : Env) (cfg : ExperimentConfig) (test : Bool)
    (stageNo rowNo : ℕ) : List Cameras → RunState → RunState × Option String
  | [], st => (st, none)
  | cam :: rest, st =>
    let n := st.captureCount
    match doCapture env cam stageNo rowNo st with
    | (st1, some e) => (st1, some e)
    | (st1, none) =>
      runCameras env cfg test stageNo rowNo rest
        (afterCapture env cfg test cam stageNo rowNo n st1)

/-- The `for row in range(stage["rows"])` loop (ic.py lines 393--421):
the first argument counts the remaining rows, the second is the current
row index; rows after the first are preceded by a relative move of
`row_distance`. -/
def runRows (env : Env) (cfg : ExperimentConfig) (test : Bool) (stage : Stage)
    (stageNo : ℕ) : ℕ → ℕ → RunState → RunState × Option String
  | 0, _, st => (st, none)
  | Nat.succ k, row, st =>
    let mv : RunState × Option String :=
      if 0 < row then doMove env stage.row_distance.length st else (st, none)
    match mv with
    | (st1, some e) => (st1, some e)
    | (st1, none) =>
      match runCameras env cfg test stageNo (row + 1) Cameras.all st1 with
      | (st2, some e) => (st2, some e)
      | (st2, none) => runRows env cfg test stage stageNo k (row + 1) st2

/-- The `for i, stage in enumerate(...)` loop (ic.py lines 388--421): each
stage starts with `move_actuator_relative(stage_distance)`, which commands
`stage_distance - current_position` (integer positions, so the source's
rounding is the identity). -/
def runStages (env : Env) (cfg : ExperimentConfig) (test : Bool) :
    List Stage → ℕ → RunState → RunState × Option String
  | [], _, st => (st, none)
  | stage :: rest, i, st =>
    match doMove env (stage.stage_distance.length - st.pos) st with
    | (st1, some e) => (st1, some e)
    | (st1, none) =>
      match runRows env cfg test stage (i + 1) stage.rows 0 st1 with
      | (st2, some e) => (st2, some e)
      | (st2, none) => runStages env cfg test rest (i + 1) st2

/-- Initial state of a run (after `get_first_last_tmp_paths` created the
two empty placeholders): `ensure_remote_dirs_exist` runs first when not a
dry run (ic.py lines 376--377). -/
def initState (test : Bool) : RunState :=
  { trace := if test then [] else [Event.ensureDirs],
    pos := 0,
    fl := { firstContent := none, lastContent := none },
    unmoved_files := [],
    captureCount := 0,
    moveCount := 0 }

/-- The `try` block of `run_experiment` (ic.py lines 385--421):
`home_actuator()` then the stage loop. -/
def runBody (env : Env) (cfg : ExperimentConfig) (test : Bool) :
    RunState × Option String :=
  let st0 := initState test
  let st1 : RunState := { st0 with trace := st0.trace ++ [Event.home], pos := 0 }
  runStages env cfg test cfg.stages 0 st1

/-- The email body (ic.py lines 432 and 445): the exception text plus its
formatted traceback on failure, the fixed success sentence otherwise. -/
def emailBody (env : Env) (err : Option String) : String :=
  match err with
  | none => "The experiment ran successfully."
  | some e => e ++ "\n\n" ++ env.traceFmt e

/-- Embedding of `run_experiment` (ic.py lines 346--461), modelled after
`read_and_validate_config` succeeded.  The `finally` block re-homes the
actuator unconditionally; when not a dry run it then sends the
notification email (subject success/error per `SUCCESS`, body
`make_unmoved_msg(unmoved_files) + email_msg`) and deletes the two
placeholder files.  `send_email` is not wrapped in any handler: when it
raises, the placeholder deletion is skipped and the email exception
replaces the run's outcome (an exception in a `finally` block supersedes
the in-flight one). -/
def run_experiment (env : Env) (cfg : ExperimentConfig) (test : Bool) :
    RunState × Option String :=
  let r := runBody env cfg test
  let stB := r.1
  let errB := r.2
  let stH : RunState := { stB with trace := stB.trace ++ [Event.home], pos := 0 }
  if test then (stH, errB)
  else
    let message := make_unmoved_msg stB.unmoved_files ++ emailBody env errB
    let stE : RunState :=
      { stH with trace := stH.trace ++ [Event.email errB.isNone message] }
    if env.emailOk then
      ({ stE with trace := stE.trace ++
          [Event.deleteTmp env.tmp1, Event.deleteTmp env.tmp2] }, errB)
    else (stE, some env.emailErr)

/-- Number of `home` events in a trace. -/
def countHomes (tr : List Event) : ℕ :=
  tr.countP (fun e => match e with | Event.home => true | _ => false)

/-- The cameras of the capture events of a trace, in order. -/
def captureCams (tr : List Event) : List Cameras :=
  tr.filterMap (fun e => match e with | Event.capture c _ _ => some c | _ => none)

/-- Every capture performed so far succeeded (loop invariant while the
body is still running). -/
def capturesAllOk (env : Env) (st : RunState) : Prop :=
  ∀ m, m < st.captureCount → env.captureOk m = true

/-- Every capture except possibly the last one succeeded: after the first
failed capture no further capture is invoked. -/
def capturesAllButLastOk (env : Env) (st : RunState) : Prop :=
  ∀ m, m + 1 < st.captureCount → env.captureOk m = true

/-- Event classes the `try` body can emit: everything except the
notification email and the placeholder deletions, which belong to the
`finally` block. -/
def bodyEvent : Event → Bool
  | Event.email _ _ => false
  | Event.deleteTmp _ => false
  | _ => true

/-! ## Concrete fixtures used by the witnesses and counterexamples -/

/-- A fully keyed raw stage with the given numeric data. -/
def rawStage (sd rd rows : ℤ) : RawStage :=
  { stage_distance := some { length := some sd, units := none },
    row_distance := some { length := some rd, units := none },
    rows := some rows }

/-- Settings with a 100 mm maximum travel bound and every path existing. -/
def s0 : Settings := { MAX_DISTANCE := some 100, path_exists := fun _ => true }

/-- Settings with no maximum travel bound and every path existing. -/
def s6 : Settings := { MAX_DISTANCE := none, path_exists := fun _ => true }

/-- A schema-valid two-stage config whose stages do not overlap. -/
def cfgGood : RawConfig :=
  { name := some "trial-1", output_dir := some "/data/runs",
    number_of_images := some 3, emails := some ["a@example.com"],
    stages := some [rawStage 0 2 2, rawStage 5 3 1] }

/-- Same as `cfgGood` except stage 2's `stage_distance` (3) is smaller than
stage 1's `row_distance * rows` (4). -/
def cfgReject : RawConfig :=
  { cfgGood with stages := some [rawStage 0 2 2, rawStage 3 3 1] }

/-- A config violating two distinct constraints at once: stage 2 overlaps
stage 1's span (travel-overlap violation), and `number_of_images` is 0
(field-level schema violation). -/
def cfg6 : RawConfig :=
  { name := some "trial-1", output_dir := some "/data/runs",
    number_of_images := some 0, emails := some ["a@example.com"],
    stages := some [rawStage 0 5 2, rawStage 3 1 1] }

/-- A config whose first stage lacks the `stage_distance` key and whose
other fields also violate the field-level schema. -/
def cfgK : RawConfig :=
  { name := none, output_dir := none, number_of_images := some 0, emails := none,
    stages := some [{ stage_distance := none,
                      row_distance := some { length := some 1, units := none },
                      rows := some 1 }] }

/-- An oracle environment in which every hardware and network operation
succeeds. -/
def env0 : Env :=
  { captureOk := fun _ => true, moveOk := fun _ => true, putOk := fun _ => true,
    emailOk := true,
    captureErr := fun n => "capture " ++ toString n ++ " failed",
    moveErr := fun n => "move " ++ toString n ++ " failed",
    emailErr := "email failed",
    ts := fun _ => "20240101-000000",
    traceFmt := fun e => "Traceback: " ++ e,
    tmp1 := "/tmp/t1.jpg", tmp2 := "/tmp/t2.jpg" }

/-- Same as `env0` except the notification email raises. -/
def envBad : Env := { env0 with emailOk := false }

/-- A 1-stage, 1-row experiment config with `number_of_images = 1`. -/
def cfg7 : ExperimentConfig :=
  { name := "exp", output_dir := "/data", number_of_images := 1,
    emails := ["someone@example.com"],
    stages := [{ stage_distance := { length := 4, units := some "mm" },
                 row_distance := { length := 2, units := none }, rows := 1 }] }

/-! ## Helper lemmas -/

/-- The travel-overlap loop accepts a fully keyed stage list exactly when
the accumulated-span constraint of the specification holds. -/
theorem checkStagesLoop_ok_iff (max_dist : Option ℤ) :
    ∀ (raws : List RawStage) (ds : List (ℤ × ℤ × ℤ)) (prev : ℤ) (i : ℕ),
      stagesData raws = some ds →
      (checkStagesLoop max_dist raws prev i = Except.ok () ↔
        specAccepts max_dist ds prev) := by
  intro raws
  induction raws with
  | nil =>
    intro ds prev i h
    simp only [stagesData, Option.some.injEq] at h
    subst h
    simp [checkStagesLoop, specAccepts]
  | cons s rest ih =>
    intro ds prev i h
    rcases hd : stageData s with _ | d
    · simp [stagesData, hd] at h
    rcases hrest : stagesData rest with _ | ds2
    · simp [stagesData, hd, hrest] at h
    simp only [stagesData, hd, hrest, Option.some.injEq] at h
    subst h
    rcases hsd : s.stage_distance with _ | sd
    · simp [stageData, hsd] at hd
    rcases hrd : s.row_distance with _ | rd
    · simp [stageData, hsd, hrd] at hd
    rcases hrows : s.rows with _ | rows
    · simp [stageData, hsd, hrd, hrows] at hd
    rcases hsdl : sd.length with _ | sdl
    · simp [stageData, hsd, hrd, hrows, hsdl] at hd
    rcases hrdl : rd.length with _ | rdl
    · simp [stageData, hsd, hrd, hrows, hsdl, hrdl] at hd
    simp only [stageData, hsd, hrd, hrows, hsdl, hrdl, Option.some.injEq] at hd
    subst hd
    simp only [checkStagesLoop, hsd, hsdl, hrd, hrdl, hrows]
    by_cases hlt : sdl < prev
    · simp only [if_pos hlt]
      simp only [specAccepts]
      constructor
      · intro habs; cases habs
      · rintro ⟨hle, -, -⟩; omega
    · simp only [if_neg hlt]
      cases max_dist with
      | none =>
        simp only [specAccepts]
        rw [ih ds2 (rdl * rows + sdl) (i + 1) hrest]
        constructor
        · intro hrec
          refine ⟨by omega, by simp, hrec⟩
        · rintro ⟨-, -, hrec⟩; exact hrec
      | some m =>
        by_cases hgt : rdl * rows + sdl > m
        · simp only [if_pos hgt]
          simp only [specAccepts]
          constructor
          · intro habs; cases habs
          · rintro ⟨-, hmax, -⟩
            have := hmax m rfl
            omega
        · simp only [if_neg hgt]
          rw [ih ds2 (rdl * rows + sdl) (i + 1) hrest]
          simp only [specAccepts]
          constructor
          · intro hrec
            refine ⟨by omega, ?_, hrec⟩
            rintro m' hm'
            injection hm' with hm'
            omega
          · rintro ⟨-, -, hrec⟩; exact hrec

/-- When `validate_config` accepts, the travel-overlap loop accepted. -/
theorem validate_ok_imp_loop_ok (s : Settings) (cfg : RawConfig)
    (stages : List RawStage) (h : cfg.stages = some stages) :
    validate_config s cfg = Except.ok () →
    checkStagesLoop s.MAX_DISTANCE stages 0 0 = Except.ok () := by
  intro hv
  rcases hl : checkStagesLoop s.MAX_DISTANCE stages 0 0 with e | u
  · simp [validate_config, h, hl] at hv
  · cases u; rfl

/-- A state whose captures all succeeded also satisfies the weaker
all-but-last property. -/
theorem capturesAllOk_imp_allButLast (env : Env) (st : RunState)
    (h : capturesAllOk env st) : capturesAllButLastOk env st :=
  fun m hm => h m (by omega)

/-- The all-captures-succeeded property only depends on the capture
count. -/
theorem capturesAllOk_congr (env : Env) {st st' : RunState}
    (h : st'.captureCount = st.captureCount) (hP : capturesAllOk env st) :
    capturesAllOk env st' := fun m hm => hP m (h ▸ hm)

/-- The all-but-last property only depends on the capture count. -/
theorem capturesAllButLastOk_congr (env : Env) {st st' : RunState}
    (h : st'.captureCount = st.captureCount) (hP : capturesAllButLastOk env st) :
    capturesAllButLastOk env st' := fun m hm => hP m (h ▸ hm)

/-- Closed form of `doCapture`. -/
theorem doCapture_eq (env : Env) (cam : Cameras) (sn rn : ℕ) (st : RunState) :
    doCapture env cam sn rn st =
      ({ st with trace := st.trace ++ [Event.capture cam sn rn],
                 captureCount := st.captureCount + 1 },
       if env.captureOk st.captureCount then none
       else some (env.captureErr st.captureCount)) := by
  by_cases h : env.captureOk st.captureCount <;> simp [doCapture, h]

/-- Closed form of `doMove`. -/
theorem doMove_eq (env : Env) (dist : ℤ) (st : RunState) :
    doMove env dist st =
      (if env.moveOk st.moveCount then
        ({ st with trace := st.trace ++ [Event.moveRel dist],
                   moveCount := st.moveCount + 1, pos := st.pos + dist }, none)
       else
        ({ st with trace := st.trace ++ [Event.moveRel dist],
                   moveCount := st.moveCount + 1 },
         some (env.moveErr st.moveCount))) := by
  by_cases h : env.moveOk st.moveCount <;> simp [doMove, h]

/-- Moves never change the capture count. -/
theorem doMove_captureCount (env : Env) (dist : ℤ) (st : RunState) :
    (doMove env dist st).1.captureCount = st.captureCount := by
  rw [doMove_eq]
  by_cases h : env.moveOk st.moveCount <;> simp [h]

/-- Moves append exactly one `moveRel` event. -/
theorem doMove_trace (env : Env) (dist : ℤ) (st : RunState) :
    (doMove env dist st).1.trace = st.trace ++ [Event.moveRel dist] := by
  rw [doMove_eq]
  by_cases h : env.moveOk st.moveCount <;> simp [h]

/-- The post-capture bookkeeping does not change the capture count. -/
theorem afterCapture_captureCount (env : Env) (cfg : ExperimentConfig)
    (test : Bool) (cam : Cameras) (sn rn n : ℕ) (st1 : RunState) :
    (afterCapture env cfg test cam sn rn n st1).captureCount = st1.captureCount := by
  rw [afterCapture]
  by_cases htest : test
  · simp [htest]
  · simp [htest, offloadBatch]

/-- The post-capture bookkeeping appends only body events. -/
theorem afterCapture_trace_all (env : Env) (cfg : ExperimentConfig)
    (test : Bool) (cam : Cameras) (sn rn n : ℕ) (st1 : RunState)
    (h : st1.trace.all bodyEvent = true) :
    (afterCapture env cfg test cam sn rn n st1).trace.all bodyEvent = true := by
  rw [afterCapture]
  by_cases htest : test
  · simp [htest, h]
  · simp [htest, offloadBatch, h, bodyEvent]

/-- Loop invariant of the camera loop: starting from a state whose captures
all succeeded, all captures succeed on normal exit, at most the last
capture failed in any case, and the trace holds only body events. -/
theorem runCameras_invariant (env : Env) (cfg : ExperimentConfig) (test : Bool)
    (sn rn : ℕ) :
    ∀ (cams : List Cameras) (st : RunState),
      capturesAllOk env st → st.trace.all bodyEvent = true →
      (((runCameras env cfg test sn rn cams st).2 = none →
          capturesAllOk env (runCameras env cfg test sn rn cams st).1)
       ∧ capturesAllButLastOk env (runCameras env cfg test sn rn cams st).1
       ∧ (runCameras env cfg test sn rn cams st).1.trace.all bodyEvent = true) := by
  intro cams
  induction cams with
  | nil =>
    intro st hP htr
    exact ⟨fun _ => hP, capturesAllOk_imp_allButLast env st hP, htr⟩
  | cons cam rest ih =>
    intro st hP htr
    simp only [runCameras, doCapture_eq]
    by_cases h : env.captureOk st.captureCount
    · simp only [if_pos h]
      refine ih _ ?_ ?_
      · refine capturesAllOk_congr env
          (afterCapture_captureCount env cfg test cam sn rn st.captureCount _) ?_
        intro m hm
        have hm' : m < st.captureCount + 1 := hm
        rcases Nat.lt_succ_iff_lt_or_eq.mp hm' with h1 | h1
        · exact hP m h1
        · subst h1; exact h
      · refine afterCapture_trace_all env cfg test cam sn rn st.captureCount _ ?_
        show (st.trace ++ [Event.capture cam sn rn]).all bodyEvent = true
        simp [List.all_append, htr, bodyEvent]
    · simp only [if_neg h]
      refine ⟨?_, ?_, ?_⟩
      · intro habs
        exact absurd habs (by simp)
      · intro m hm
        have hm' : m + 1 < st.captureCount + 1 := hm
        exact hP m (by omega)
      · show (st.trace ++ [Event.capture cam sn rn]).all bodyEvent = true
        simp [List.all_append, htr, bodyEvent]

/-- Loop invariant of the row loop, in equation style. -/
theorem runRows_invariant (env : Env) (cfg : ExperimentConfig) (test : Bool)
    (stage : Stage) (sn : ℕ) :
    ∀ (k row : ℕ) (st st' : RunState) (err : Option String),
      runRows env cfg test stage sn k row st = (st', err) →
      capturesAllOk env st → st.trace.all bodyEvent = true →
      ((err = none → capturesAllOk env st')
       ∧ capturesAllButLastOk env st'
       ∧ st'.trace.all bodyEvent = true) := by
  intro k
  induction k with
  | zero =>
    intro row st st' err hrun hP htr
    simp only [runRows] at hrun
    injection hrun with h1 h2
    subst h1
    subst h2
    exact ⟨fun _ => hP, capturesAllOk_imp_allButLast env st hP, htr⟩
  | succ k ih =>
    intro row st st' err hrun hP htr
    simp only [runRows] at hrun
    by_cases hrow : 0 < row
    · rw [if_pos hrow] at hrun
      rcases hmv : doMove env stage.row_distance.length st with ⟨st1, e1⟩
      rw [hmv] at hrun
      have hc1 : st1.captureCount = st.captureCount := by
        have h := doMove_captureCount env stage.row_distance.length st
        rw [hmv] at h
        exact h
      have htr1 : st1.trace.all bodyEvent = true := by
        have h := doMove_trace env stage.row_distance.length st
        rw [hmv] at h
        rw [h]
        simp [List.all_append, htr, bodyEvent]
      have hP1 : capturesAllOk env st1 := capturesAllOk_congr env hc1 hP
      cases e1 with
      | some e =>
        simp at hrun
        obtain ⟨h1, h2⟩ := hrun
        subst h1
        subst h2
        exact ⟨fun habs => by simp at habs,
          capturesAllOk_imp_allButLast env st1 hP1, htr1⟩
      | none =>
        simp only [] at hrun
        rcases hrc : runCameras env cfg test sn (row + 1) Cameras.all st1 with ⟨st2, e2⟩
        rw [hrc] at hrun
        have inv := runCameras_invariant env cfg test sn (row + 1) Cameras.all st1 hP1 htr1
        rw [hrc] at inv
        cases e2 with
        | some e =>
          simp at hrun
          obtain ⟨h1, h2⟩ := hrun
          subst h1
          subst h2
          exact ⟨fun habs => by simp at habs, inv.2.1, inv.2.2⟩
        | none =>
          simp only [] at hrun
          exact ih (row + 1) st2 st' err hrun (inv.1 rfl) inv.2.2
    · rw [if_neg hrow] at hrun
      simp only [] at hrun
      rcases hrc : runCameras env cfg test sn (row + 1) Cameras.all st with ⟨st2, e2⟩
      rw [hrc] at hrun
      have inv := runCameras_invariant env cfg test sn (row + 1) Cameras.all st hP htr
      rw [hrc] at inv
      cases e2 with
      | some e =>
        simp at hrun
        obtain ⟨h1, h2⟩ := hrun
        subst h1
        subst h2
        exact ⟨fun habs => by simp at habs, inv.2.1, inv.2.2⟩
      | none =>
        simp only [] at hrun
        exact ih (row + 1) st2 st' err hrun (inv.1 rfl) inv.2.2

/-- Loop invariant of the stage loop, in equation style. -/
theorem runStages_invariant (env : Env) (cfg : ExperimentConfig) (test : Bool) :
    ∀ (stages : List Stage) (i : ℕ) (st st' : RunState) (err : Option String),
      runStages env cfg test stages i st = (st', err) →
      capturesAllOk env st → st.trace.all bodyEvent = true →
      ((err = none → capturesAllOk env st')
       ∧ capturesAllButLastOk env st'
       ∧ st'.trace.all bodyEvent = true) := by
  intro stages
  induction stages with
  | nil =>
    intro i st st' err hrun hP htr
    simp only [runStages] at hrun
    injection hrun with h1 h2
    subst h1
    subst h2
    exact ⟨fun _ => hP, capturesAllOk_imp_allButLast env st hP, htr⟩
  | cons stage rest ih =>
    intro i st st' err hrun hP htr
    simp only [runStages] at hrun
    rcases hmv : doMove env (stage.stage_distance.length - st.pos) st with ⟨st1, e1⟩
    rw [hmv] at hrun
    have hc1 : st1.captureCount = st.captureCount := by
      have h := doMove_captureCount env (stage.stage_distance.length - st.pos) st
      rw [hmv] at h
      exact h
    have htr1 : st1.trace.all bodyEvent = true := by
      have h := doMove_trace env (stage.stage_distance.length - st.pos) st
      rw [hmv] at h
      rw [h]
      simp [List.all_append, htr, bodyEvent]
    have hP1 : capturesAllOk env st1 := capturesAllOk_congr env hc1 hP
    cases e1 with
    | some e =>
      simp at hrun
      obtain ⟨h1, h2⟩ := hrun
      subst h1
      subst h2
      exact ⟨fun habs => by simp at habs,
        capturesAllOk_imp_allButLast env st1 hP1, htr1⟩
    | none =>
      simp only [] at hrun
      rcases hrr : runRows env cfg test stage (i + 1) stage.rows 0 st1 with ⟨st2, e2⟩
      rw [hrr] at hrun
      have inv := runRows_invariant env cfg test stage (i + 1) stage.rows 0 st1 st2 e2
        hrr hP1 htr1
      cases e2 with
      | some e =>
        simp at hrun
        obtain ⟨h1, h2⟩ := hrun
        subst h1
        subst h2
        exact ⟨fun habs => by simp at habs, inv.2.1, inv.2.2⟩
      | none =>
        simp only [] at hrun
        exact ih (i + 1) st2 st' err hrun (inv.1 rfl) inv.2.2

/-- Invariant of the whole `try` body: if it returns normally every capture
succeeded, in any case no capture was invoked after a failed one, and the
trace holds only body events (no email, no placeholder deletion). -/
theorem runBody_invariant (env : Env) (cfg : ExperimentConfig) (test : Bool) :
    (((runBody env cfg test).2 = none → capturesAllOk env (runBody env cfg test).1)
   ∧ capturesAllButLastOk env (runBody env cfg test).1
   ∧ (runBody env cfg test).1.trace.all bodyEvent = true) := by
  rcases hrun : runBody env cfg test with ⟨st', err⟩
  simp only [runBody] at hrun
  have h := runStages_invariant env cfg test cfg.stages 0 _ st' err hrun ?_ ?_
  · exact h
  · intro m hm
    have hm' : m < 0 := hm
    omega
  · show ((initState test).trace ++ [Event.home]).all bodyEvent = true
    cases test <;> simp [initState, bodyEvent]

/-! ## Claim theorems -/

/-- C2: for every fully keyed stage sequence of a config that passes the
field-level schema, `validate_config` accepts if and only if each stage's
`stage_distance` is at least the cumulative span reached by the prior
stages (a stage's cumulative span being its `stage_distance` plus
`row_distance * rows`) and, when a maximum travel distance is configured,
no stage's cumulative span exceeds it; in particular any two-stage config
in which stage 2's `stage_distance` is smaller than stage 1's
`row_distance * rows` is rejected. -/
theorem validate_accepts_iff_spec :
    (∀ (s : Settings) (cfg : RawConfig) (stages : List RawStage)
        (ds : List (ℤ × ℤ × ℤ)),
        cfg.stages = some stages →
        stagesData stages = some ds →
        schemaCheck s.path_exists cfg = Except.ok () →
        (validate_config s cfg = Except.ok () ↔ specAccepts s.MAX_DISTANCE ds 0))
  ∧ (∀ (s : Settings) (cfg : RawConfig) (st1 st2 : RawStage)
        (d1 r1 n1 d2 r2 n2 : ℤ),
        cfg.stages = some [st1, st2] →
        stagesData [st1, st2] = some [(d1, r1, n1), (d2, r2, n2)] →
        d2 < r1 * n1 →
        validate_config s cfg ≠ Except.ok ()) := by
  constructor
  · intro s cfg stages ds hst hds hschema
    rw [← checkStagesLoop_ok_iff s.MAX_DISTANCE stages ds 0 0 hds]
    constructor
    · exact validate_ok_imp_loop_ok s cfg stages hst
    · intro hloop
      simp [validate_config, hst, hloop, hschema]
  · intro s cfg st1 st2 d1 r1 n1 d2 r2 n2 hst hds hlt hok
    have hloop := validate_ok_imp_loop_ok s cfg [st1, st2] hst hok
    rw [checkStagesLoop_ok_iff s.MAX_DISTANCE [st1, st2] _ 0 0 hds] at hloop
    simp only [specAccepts] at hloop
    obtain ⟨h1, -, h2, -, -⟩ := hloop
    have := mul_comm r1 n1
    omega

/-- C2 witness: the acceptance equivalence instantiated at a concrete
accepted config, and the overlap rejection instantiated at a concrete
overlapping config. -/
theorem validate_accepts_iff_spec_witness :
    (validate_config s0 cfgGood = Except.ok () ↔
      specAccepts s0.MAX_DISTANCE [(0, 2, 2), (5, 3, 1)] 0)
  ∧ validate_config s0 cfgReject ≠ Except.ok () := by
  constructor
  · exact validate_accepts_iff_spec.1 s0 cfgGood _ _ rfl (by decide) (by decide)
  · exact validate_accepts_iff_spec.2 s0 cfgReject (rawStage 0 2 2) (rawStage 3 3 1)
      0 2 2 3 3 1 rfl (by decide) (by decide)

/-- C6 counterexample: `cfg6` violates both the travel-overlap constraint
and the `number_of_images` field constraint, yet `validate_config` raises
an error whose list carries only the single travel-overlap message — the
failure is not aggregated over all violated constraints. -/
theorem validate_no_aggregation_counterexample :
    validate_config s6 cfg6 = Except.error (PyError.schemaError
      ["Size of stage 0 10 is longer than `distance_from_home` of next stage (3)!"])
  ∧ schemaCheck s6.path_exists cfg6 ≠ Except.ok () := by
  constructor <;> decide

/-- C6 amended: `validate_config` raises the first violation found — any
error of the travel-overlap loop is returned as is, before the field-level
schema validation runs (so the travel-overlap violation is surfaced
independently of, and instead of, any field-level violations). -/
theorem validate_first_error_only (s : Settings) (cfg : RawConfig)
    (stages : List RawStage) (e : PyError) (hst : cfg.stages = some stages)
    (hloop : checkStagesLoop s.MAX_DISTANCE stages 0 0 = Except.error e) :
    validate_config s cfg = Except.error e := by
  simp [validate_config, hst, hloop]

/-- C6 amended witness: the first-error behaviour at the concrete doubly
violating config. -/
theorem validate_first_error_only_witness :
    validate_config s6 cfg6 = Except.error (PyError.schemaError
      ["Size of stage 0 10 is longer than `distance_from_home` of next stage (3)!"]) :=
  validate_first_error_only s6 cfg6 [rawStage 0 5 2, rawStage 3 1 1] _ rfl (by decide)

/-- C10: the travel-overlap loop runs before any field/schema validation,
so when a stage mapping lacks the `stage_distance`, nested `length`,
`row_distance`, or `rows` keys, `validate_config` raises the raw
`KeyError` of the loop's subscript — for every config, including ones the
field-level schema would also reject with a descriptive error. -/
theorem validate_raw_keyerror (s : Settings) (cfg : RawConfig) (st : RawStage)
    (rest : List RawStage) (hst : cfg.stages = some (st :: rest)) :
    (st.stage_distance = none →
       validate_config s cfg = Except.error (PyError.keyError "stage_distance"))
  ∧ (∀ sd, st.stage_distance = some sd → sd.length = none →
       validate_config s cfg = Except.error (PyError.keyError "length"))
  ∧ (∀ sd sdl, st.stage_distance = some sd → sd.length = some sdl → 0 ≤ sdl →
       st.row_distance = none →
       validate_config s cfg = Except.error (PyError.keyError "row_distance"))
  ∧ (∀ sd sdl rd, st.stage_distance = some sd → sd.length = some sdl → 0 ≤ sdl →
       st.row_distance = some rd → rd.length = none →
       validate_config s cfg = Except.error (PyError.keyError "length"))
  ∧ (∀ sd sdl rd rdl, st.stage_distance = some sd → sd.length = some sdl → 0 ≤ sdl →
       st.row_distance = some rd → rd.length = some rdl → st.rows = none →
       validate_config s cfg = Except.error (PyError.keyError "rows")) := by
  refine ⟨?_, ?_, ?_, ?_, ?_⟩
  · intro h
    simp [validate_config, hst, checkStagesLoop, h]
  · intro sd h1 h2
    simp [validate_config, hst, checkStagesLoop, h1, h2]
  · intro sd sdl h1 h2 h3 h4
    simp [validate_config, hst, checkStagesLoop, h1, h2, h4, if_neg (not_lt.mpr h3)]
  · intro sd sdl rd h1 h2 h3 h4 h5
    simp [validate_config, hst, checkStagesLoop, h1, h2, h4, h5, if_neg (not_lt.mpr h3)]
  · intro sd sdl rd rdl h1 h2 h3 h4 h5 h6
    simp [validate_config, hst, checkStagesLoop, h1, h2, h4, h5, h6,
      if_neg (not_lt.mpr h3)]

/-- C10 witness: a config whose first stage lacks `stage_distance` (and
whose other fields violate the schema as well) produces the raw
`KeyError`, not a schema error. -/
theorem validate_raw_keyerror_witness :
    validate_config s6 cfgK = Except.error (PyError.keyError "stage_distance") :=
  (validate_raw_keyerror s6 cfgK _ [] rfl).1 rfl

/-- C4: `start_camera` drives the three gate lines (pins 7, 11, 12) to
exactly A = (0,0,1), B = (1,0,1), C = (0,1,0), D = (1,1,0), and for any
other identifier it raises the invalid-identifier `ValueError` leaving the
gate lines untouched. -/
theorem start_camera_gate_table (g : GpioState) :
    start_camera "A" g = ({ g with pin7 := false, pin11 := false, pin12 := true }, none)
  ∧ start_camera "B" g = ({ g with pin7 := true, pin11 := false, pin12 := true }, none)
  ∧ start_camera "C" g = ({ g with pin7 := false, pin11 := true, pin12 := false }, none)
  ∧ start_camera "D" g = ({ g with pin7 := true, pin11 := true, pin12 := false }, none)
  ∧ (∀ cid, cid ∉ camera_member_names →
       start_camera cid g = (g, some ("A,B,C,D, received " ++ cid))) := by
  refine ⟨?_, ?_, ?_, ?_, ?_⟩
  · simp [start_camera, camera_member_names, Cameras.all, Cameras.name]
  · simp [start_camera, camera_member_names, Cameras.all, Cameras.name]
  · simp [start_camera, camera_member_names, Cameras.all, Cameras.name]
  · simp [start_camera, camera_member_names, Cameras.all, Cameras.name]
  · intro cid h
    simp [start_camera, h]

/-- C4 witness: the invalid identifier "X" fails with the error message and
leaves the gate lines unchanged. -/
theorem start_camera_gate_table_witness :
    start_camera "X" { pin7 := true, pin11 := true, pin12 := true } =
      ({ pin7 := true, pin11 := true, pin12 := true }, some "A,B,C,D, received X") :=
  (start_camera_gate_table { pin7 := true, pin11 := true, pin12 := true }).2.2.2.2
    "X" (by decide)

/-- C8: when the `first` placeholder is zero-length, `update_first_last`
copies the batch's earliest local path into `first`; when `first` is
non-empty it copies the batch's latest local path into `last` and leaves
`first` unchanged. -/
theorem update_first_last_spec (fl : FirstLast) (local_paths : List String)
    (h : local_paths ≠ []) :
    (fl.firstContent = none →
       update_first_last fl local_paths =
         { fl with firstContent := some (local_paths.head h) })
  ∧ (∀ c, fl.firstContent = some c →
       (update_first_last fl local_paths).lastContent = local_paths.getLast? ∧
       (update_first_last fl local_paths).firstContent = some c) := by
  constructor
  · intro hf
    cases local_paths with
    | nil => exact absurd rfl h
    | cons a rest => simp [update_first_last, hf, List.head]
  · intro c hf
    simp [update_first_last, hf]

/-- C8 witness: both branches evaluated at concrete placeholder states and
batches. -/
theorem update_first_last_spec_witness :
    update_first_last { firstContent := none, lastContent := none } ["a", "b"] =
      { firstContent := some "a", lastContent := none }
  ∧ (update_first_last { firstContent := some "a", lastContent := none }
       ["c", "d"]).lastContent = some "d"
  ∧ (update_first_last { firstContent := some "a", lastContent := none }
       ["c", "d"]).firstContent = some "a" := by
  refine ⟨?_, ?_, ?_⟩
  · exact (update_first_last_spec { firstContent := none, lastContent := none }
      ["a", "b"] (by decide)).1 rfl
  · exact ((update_first_last_spec { firstContent := some "a", lastContent := none }
      ["c", "d"] (by decide)).2 "a" rfl).1
  · exact ((update_first_last_spec { firstContent := some "a", lastContent := none }
      ["c", "d"] (by decide)).2 "a" rfl).2

/-- C9 counterexample: at current position 2/5 mm and target 3 mm the
commanded relative move is `3 - round(2/5) = 3`, not the claim's
`targetDistance - currentPosition = 13/5`, and the resulting absolute
position is 17/5, not the target 3 — the source rounds the current
position before subtracting (ic.py lines 162--163). -/
theorem move_to_absolute_counterexample :
    ((move_actuator_relative_command 3 (2/5 : ℚ) : ℚ) ≠ (3 : ℚ) - (2/5 : ℚ))
  ∧ move_to_absolute_result 3 (2/5 : ℚ) ≠ (3 : ℚ) := by
  have h0 : round ((2 : ℚ)/5) = 0 := by
    rw [round_eq]
    norm_num
  have h3 : move_actuator_relative_command 3 (2/5 : ℚ) = 3 := by
    rw [move_actuator_relative_command, h0]
    rw [round_eq]
    norm_num
  constructor
  · rw [h3]
    norm_num
  · rw [move_to_absolute_result, h3]
    norm_num

/-- C9 amended: `move_actuator_relative` commands
`round(targetDistance - round(currentPosition))`; whenever the current
position is a whole number of the working unit — in particular in every
state this program reaches, since homing zeroes the position and all
commanded moves are integers — this equals `targetDistance -
currentPosition` and the resulting absolute position equals the target. -/
theorem move_to_absolute_integer_position (distance n : ℤ) :
    move_actuator_relative_command distance (n : ℚ) = distance - n
  ∧ move_to_absolute_result distance (n : ℚ) = (distance : ℚ) := by
  have h1 : round ((n : ℚ)) = n := round_intCast n
  have h2 : move_actuator_relative_command distance (n : ℚ) = distance - n := by
    rw [move_actuator_relative_command, h1, ← Int.cast_sub, round_intCast]
  refine ⟨h2, ?_⟩
  rw [move_to_absolute_result, h2]
  push_cast
  ring

/-- C3 (code bug): `move_files_to_remote` on an all-successful connection
returns an empty failure list but removes no local file, and on an
always-failing connection returns every path as a failure, again removing
none — the `os.remove(local_path)` call the claim and the repo's own
`test_move_to_remote` expect is commented out at ic.py line 279, so the
removed-files component is `[]` for every input. -/
theorem move_files_to_remote_eval :
    move_files_to_remote (fun _ => true)
        ["/noexist/cameraMOCK/1.jpg", "/noexist/cameraMOCK/2.jpg"] "test-experiment"
      = ([], [])
  ∧ move_files_to_remote (fun _ => false)
        ["/noexist/cameraMOCK/1.jpg", "/noexist/cameraMOCK/2.jpg"] "test-experiment"
      = (["/noexist/cameraMOCK/1.jpg", "/noexist/cameraMOCK/2.jpg"], [])
  ∧ (∀ (putOk : String → Bool) (paths : List String) (nm : String),
      (move_files_to_remote putOk paths nm).2 = []) := by
  refine ⟨by decide, by decide, ?_⟩
  intro putOk paths nm
  induction paths with
  | nil => rfl
  | cons p rest ih =>
    simp only [move_files_to_remote, moveFilesLoop] at ih ⊢
    exact ih

/-- C7: a dry run of the 1-stage, 1-row, 1-image config performs exactly 4
capture invocations in the order A, B, C, D, homes the actuator exactly
twice, and leaves both placeholder result files non-empty. -/
theorem dry_run_single_stage_trace :
    captureCams (run_experiment env0 cfg7 true).1.trace =
      [Cameras.A, Cameras.B, Cameras.C, Cameras.D]
  ∧ countHomes (run_experiment env0 cfg7 true).1.trace = 2
  ∧ (run_experiment env0 cfg7 true).1.fl.firstContent.isSome = true
  ∧ (run_experiment env0 cfg7 true).1.fl.lastContent.isSome = true := by
  refine ⟨by decide, by decide, by decide, by decide⟩

/-- C1: whatever the outcome of the stage/row/camera loop, the cleanup
phase executes — the trace always ends with a re-homing event followed,
when not a dry run, by the notification email (whose message is the
failed-offload report plus, on failure, the exception detail and its
traceback, or the fixed success sentence) and the deletion of the two
placeholder files (the email itself succeeding) — and no capture is
invoked after a failed one, so a capture failure aborts the remaining
cameras and rows. -/
theorem run_experiment_cleanup (env : Env) (cfg : ExperimentConfig) (test : Bool)
    (hemail : env.emailOk = true) :
    (∃ body,
      (run_experiment env cfg test).1.trace =
        body ++ [Event.home] ++
          (if test then ([] : List Event)
           else [Event.email (run_experiment env cfg test).2.isNone
                   (make_unmoved_msg (run_experiment env cfg test).1.unmoved_files ++
                      emailBody env (run_experiment env cfg test).2),
                 Event.deleteTmp env.tmp1, Event.deleteTmp env.tmp2]))
  ∧ (∀ e, (run_experiment env cfg test).2 = some e →
        emailBody env (run_experiment env cfg test).2 = e ++ "\n\n" ++ env.traceFmt e)
  ∧ ((run_experiment env cfg test).2 = none →
        emailBody env (run_experiment env cfg test).2 = "The experiment ran successfully.")
  ∧ capturesAllButLastOk env (run_experiment env cfg test).1 := by
  rcases hB : runBody env cfg test with ⟨stB, errB⟩
  have inv := runBody_invariant env cfg test
  rw [hB] at inv
  cases test with
  | true =>
    simp only [run_experiment, hB]
    refine ⟨⟨stB.trace, by simp⟩, ?_, ?_, ?_⟩
    · intro e he
      rw [he]
      rfl
    · intro he
      rw [he]
      rfl
    · exact capturesAllButLastOk_congr env rfl inv.2.1
  | false =>
    simp only [run_experiment, hB, hemail]
    refine ⟨⟨stB.trace, by simp⟩, ?_, ?_, ?_⟩
    · intro e he
      rw [he]
      rfl
    · intro he
      rw [he]
      rfl
    · exact capturesAllButLastOk_congr env rfl inv.2.1

/-- C1 witness: the abort property of the cleanup theorem instantiated at
the all-succeeding environment and the concrete config, with the
email-success hypothesis discharged by `rfl`. -/
theorem run_experiment_cleanup_witness :
    capturesAllButLastOk env0 (run_experiment env0 cfg7 false).1 :=
  (run_experiment_cleanup env0 cfg7 false rfl).2.2.2

/-- C5 counterexample: with every capture and transfer succeeding but the
notification send raising, the loop body finishes normally yet
`run_experiment` ends in the email error — the exception escapes the
cleanup phase, changes the run's outcome, and the placeholder files are
never deleted. -/
theorem email_failure_counterexample :
    (runBody envBad cfg7 false).2 = none
  ∧ (run_experiment envBad cfg7 false).2 = some "email failed"
  ∧ Event.deleteTmp "/tmp/t1.jpg" ∉ (run_experiment envBad cfg7 false).1.trace := by
  refine ⟨by decide, by decide, by decide⟩

/-- C5 amended: a failure of the notification send is not caught —
`send_email` is called in the `finally` block with no handler, so the
email exception replaces the run's outcome (whatever the loop produced)
and the two placeholder files are never deleted. -/
theorem email_failure_propagates (env : Env) (cfg : ExperimentConfig)
    (hemail : env.emailOk = false) :
    (run_experiment env cfg false).2 = some env.emailErr
  ∧ ∀ p, Event.deleteTmp p ∉ (run_experiment env cfg false).1.trace := by
  rcases hB : runBody env cfg false with ⟨stB, errB⟩
  have inv := runBody_invariant env cfg false
  rw [hB] at inv
  simp only [run_experiment, hB, hemail]
  constructor
  · simp
  · intro p hp
    simp at hp
    have hb := List.all_eq_true.mp inv.2.2 _ hp
    simp [bodyEvent] at hb

/-- C5 amended witness: the propagated email error at the concrete
environment and config. -/
theorem email_failure_propagates_witness :
    (run_experiment envBad cfg7 false).2 = some envBad.emailErr :=
  (email_failure_propagates envBad cfg7 rfl).1

end DuckPi
